import Mathlib

/-!
Verification of the portfolio repository's core logic: the contact-form
validators, the experience sorting / date-range formatting utilities
(src/utils), and the chat widget's canned-response matcher and message
state (src/components/ChatWidget/ChatWidget.tsx).

The TypeScript functions are shallowly embedded as executable Lean
definitions.  Strings are Lean `String`s (the inputs exercised by the
claims are ASCII, where JavaScript's UTF-16 semantics and Lean's agree);
`Date` timestamps are `Nat` milliseconds; `x | null` becomes `Option`.
-/

set_option maxHeartbeats 1000000

namespace Portfolio

/-! ### Generic string helpers

JavaScript primitives used by the source: `String.prototype.includes`
(contiguous substring test), `String.prototype.trim` (strip leading and
trailing whitespace) and `String.prototype.toLowerCase`. -/

/-- Whitespace recognised by JavaScript's `trim` and the `\s` regex class
(ASCII fragment). -/
def jsWhitespace (c : Char) : Bool :=
  c == ' ' || c == '\t' || c == '\n' || c == '\r' || c == '\x0b' || c == '\x0c'

/-- `String.prototype.trim` on the character list. -/
def trimChars (l : List Char) : List Char :=
  ((l.dropWhile jsWhitespace).reverse.dropWhile jsWhitespace).reverse

/-- `value.trim()`. -/
def trimStr (s : String) : String :=
  String.mk (trimChars s.toList)

/-- Contiguous-substring test on character lists
(`String.prototype.includes`). -/
def containsSub (s pat : List Char) : Bool :=
  pat.isPrefixOf s ||
    match s with
    | [] => false
    | _ :: rest => containsSub rest pat

/-- `s.includes(pat)`. -/
def containsStr (s pat : String) : Bool :=
  containsSub s.toList pat.toList

/-- `String.prototype.toLowerCase` (per-character lowercasing, as in
core's `String.toLower`, but by structural recursion on the character
list so that it evaluates by reduction). -/
def lowerStr (s : String) : String :=
  String.mk (s.toList.map Char.toLower)

/-- Number of starting positions at which `pat` occurs in `s`
(occurrence count of a substring). -/
def countOcc (pat : List Char) : List Char → Nat
  | [] => if pat.isPrefixOf ([] : List Char) then 1 else 0
  | c :: rest =>
      (if pat.isPrefixOf (c :: rest) then 1 else 0) + countOcc pat rest

/-! ### Validation utilities (src/utils — validation module) -/

structure ValidationResult where
  isValid : Bool
  error : Option String
deriving DecidableEq

/-- `required(value, fieldName)`. -/
def required (value : String) (fieldName : String) : ValidationResult :=
  if trimStr value = "" then
    { isValid := false, error := some (fieldName ++ " is required") }
  else
    { isValid := true, error := none }

/-- `minLength(value, min, fieldName)`. -/
def minLength (value : String) (min : Nat) (fieldName : String) : ValidationResult :=
  if (trimStr value).length < min then
    { isValid := false,
      error := some (fieldName ++ " must be at least " ++ toString min ++ " characters") }
  else
    { isValid := true, error := none }

/-- `maxLength(value, max, fieldName)`. -/
def maxLength (value : String) (max : Nat) (fieldName : String) : ValidationResult :=
  if (trimStr value).length > max then
    { isValid := false,
      error := some (fieldName ++ " must be no more than " ++ toString max ++ " characters") }
  else
    { isValid := true, error := none }

/-- `validateName(value)`: required, then 2–100 characters. -/
def validateName (value : String) : ValidationResult :=
  let requiredCheck := required value "Name"
  if !requiredCheck.isValid then requiredCheck
  else
    let minCheck := minLength value 2 "Name"
    if !minCheck.isValid then minCheck
    else
      let maxCheck := maxLength value 100 "Name"
      if !maxCheck.isValid then maxCheck
      else { isValid := true, error := none }

/-- `validateMessage(value)`: required, then 10–1000 characters. -/
def validateMessage (value : String) : ValidationResult :=
  let requiredCheck := required value "Message"
  if !requiredCheck.isValid then requiredCheck
  else
    let minCheck := minLength value 10 "Message"
    if !minCheck.isValid then minCheck
    else
      let maxCheck := maxLength value 1000 "Message"
      if !maxCheck.isValid then maxCheck
      else { isValid := true, error := none }

/-- A character admitted by the regex class `[^\s@]`. -/
def okChar (c : Char) : Bool :=
  !jsWhitespace c && c != '@'

/-- Split a character list at the first occurrence of `ch`. -/
def splitAtChar (ch : Char) : List Char → Option (List Char × List Char)
  | [] => none
  | c :: rest =>
      if c = ch then some ([], rest)
      else (splitAtChar ch rest).map (fun q => (c :: q.1, q.2))

/-- The part of the email regex after the `@`: `[^\s@]+\.[^\s@]+$`
(all characters admissible, with a `.` that is neither first nor
last). -/
def domainMatch (l : List Char) : Bool :=
  l.all okChar && ((l.drop 1).dropLast).contains '.'

/-- The test `/^[^\s@]+@[^\s@]+\.[^\s@]+$/.test(trimmed)` from
`isValidEmail`: a non-empty run of `[^\s@]` characters, an `@`, then
`domainMatch`.  Splitting at the first `@` is sound because the local
part may not contain `@`. -/
def emailRegexMatch (l : List Char) : Bool :=
  match splitAtChar '@' l with
  | none => false
  | some q => !q.1.isEmpty && q.1.all okChar && domainMatch q.2

/-- `isValidEmail(value)`. -/
def isValidEmail (value : String) : ValidationResult :=
  let trimmed := trimStr value
  if trimmed = "" then
    { isValid := false, error := some "Email is required" }
  else if !emailRegexMatch trimmed.toList then
    { isValid := false, error := some "Please enter a valid email address" }
  else
    { isValid := true, error := none }

/-- `validateEmail(value)`. -/
def validateEmail (value : String) : ValidationResult :=
  isValidEmail value

/-- The language of the email regex, stated the way the specification
words it: `local@domain.tld`-shaped — one-or-more non-whitespace-non-@
characters, `@`, one-or-more such characters, `.`, one-or-more such
characters. -/
def emailShape (l : List Char) : Prop :=
  ∃ a b c : List Char,
    l = a ++ '@' :: (b ++ '.' :: c) ∧ a ≠ [] ∧ b ≠ [] ∧ c ≠ [] ∧
      a.all okChar = true ∧ b.all okChar = true ∧ c.all okChar = true

/-! ### Basic lemmas about the helpers -/

theorem str_eq_empty_of_length (t : String) (h : t.length = 0) : t = "" := by
  cases t with
  | mk data => simp [String.length] at h; simp [h]

theorem splitAtChar_sound (ch : Char) :
    ∀ l a b, splitAtChar ch l = some (a, b) → l = a ++ ch :: b := by
  intro l
  induction l with
  | nil => intro a b h; simp [splitAtChar] at h
  | cons c rest ih =>
    intro a b h
    by_cases hc : c = ch
    · simp only [splitAtChar, if_pos hc, Option.some.injEq, Prod.mk.injEq] at h
      rw [hc, ← h.1, ← h.2]; rfl
    · simp only [splitAtChar, if_neg hc, Option.map_eq_some', Prod.mk.injEq] at h
      rcases h with ⟨⟨q1, q2⟩, hq, h1, h2⟩
      subst h1; subst h2
      simp [ih _ _ hq]

theorem splitAtChar_of_not_mem (ch : Char) :
    ∀ a b, ch ∉ a → splitAtChar ch (a ++ ch :: b) = some (a, b) := by
  intro a
  induction a with
  | nil => intro b _; simp [splitAtChar]
  | cons c rest ih =>
    intro b hm
    have hc : ¬ c = ch := fun h => hm (by simp [h])
    have hr : ch ∉ rest := fun h => hm (by simp [h])
    simp [splitAtChar, hc, ih b hr]

theorem mem_dropLast_iff {α : Type} (a : α) :
    ∀ m : List α, a ∈ m.dropLast ↔ ∃ b c, m = b ++ a :: c ∧ c ≠ []
  | [] => by
    simp
  | [y] => by
    simp only [List.dropLast_single, List.not_mem_nil, false_iff]
    rintro ⟨b, c, he, hc⟩
    cases b with
    | nil => simp at he; exact hc he.2
    | cons w b' => simp at he
  | y :: z :: m' => by
    rw [List.dropLast_cons₂, List.mem_cons, mem_dropLast_iff a (z :: m')]
    constructor
    · rintro (rfl | ⟨b, c, he, hc⟩)
      · exact ⟨[], z :: m', rfl, List.cons_ne_nil _ _⟩
      · exact ⟨y :: b, c, by simp [he], hc⟩
    · rintro ⟨b, c, he, hc⟩
      cases b with
      | nil => simp at he; exact Or.inl he.1.symm
      | cons w b' =>
        simp at he
        exact Or.inr ⟨b', c, he.2, hc⟩

theorem okAll_not_mem_at (l : List Char) (h : l.all okChar = true) : '@' ∉ l := by
  intro hm
  have := List.all_eq_true.mp h _ hm
  simp [okChar] at this

theorem count_dropWhile_eq {α : Type} [DecidableEq α] (p : α → Bool) (a : α)
    (hpa : p a = false) : ∀ l : List α, (l.dropWhile p).count a = l.count a := by
  intro l
  induction l with
  | nil => rfl
  | cons x l' ih =>
    by_cases hx : p x = true
    · have hxa : x ≠ a := fun h => by rw [h, hpa] at hx; exact Bool.false_ne_true hx
      rw [List.dropWhile_cons_of_pos hx, ih, List.count_cons_of_ne (Ne.symm hxa)]
    · rw [List.dropWhile_cons_of_neg hx]

theorem count_trimChars_at (l : List Char) :
    (trimChars l).count '@' = l.count '@' := by
  have hws : jsWhitespace '@' = false := by decide
  unfold trimChars
  rw [List.count_reverse, count_dropWhile_eq _ _ hws, List.count_reverse,
    count_dropWhile_eq _ _ hws]

theorem emailShape_count (l : List Char) (h : emailShape l) : l.count '@' = 1 := by
  rcases h with ⟨a, b, c, he, _, _, _, ha, hb, hc⟩
  subst he
  have h1 : a.count '@' = 0 := List.count_eq_zero.mpr (okAll_not_mem_at a ha)
  have h2 : b.count '@' = 0 := List.count_eq_zero.mpr (okAll_not_mem_at b hb)
  have h3 : c.count '@' = 0 := List.count_eq_zero.mpr (okAll_not_mem_at c hc)
  simp [List.count_append, List.count_cons, h1, h2, h3]

theorem emailRegexMatch_iff (l : List Char) :
    emailRegexMatch l = true ↔ emailShape l := by
  constructor
  · intro h
    unfold emailRegexMatch at h
    cases hs : splitAtChar '@' l with
    | none => rw [hs] at h; simp at h
    | some q =>
      rw [hs] at h
      simp only [Bool.and_eq_true, domainMatch] at h
      obtain ⟨⟨hne, hall⟩, hdom, hdot⟩ := h
      have hl : l = q.1 ++ '@' :: q.2 := splitAtChar_sound '@' l q.1 q.2 (by rw [hs])
      have hmem : '.' ∈ (q.2.drop 1).dropLast := by
        have := List.elem_iff.mp hdot
        exact this
      cases hq2 : q.2 with
      | nil => rw [hq2] at hmem; simp at hmem
      | cons x r =>
        rw [hq2] at hmem
        simp only [List.drop_one, List.tail_cons] at hmem
        rcases (mem_dropLast_iff '.' r).mp hmem with ⟨b, c, hr, hc⟩
        refine ⟨q.1, x :: b, c, ?_, ?_, List.cons_ne_nil _ _, hc, hall, ?_, ?_⟩
        · rw [hl, hq2, hr]; simp
        · intro hq1; rw [hq1] at hne; simp at hne
        · have : (x :: r).all okChar = true := by rw [← hq2]; exact hdom
          rw [hr] at this
          simp only [List.all_cons, List.all_append, List.all_cons,
            Bool.and_eq_true] at this
          simp [List.all_cons, this.1, this.2.1]
        · have : (x :: r).all okChar = true := by rw [← hq2]; exact hdom
          rw [hr] at this
          simp only [List.all_cons, List.all_append, List.all_cons,
            Bool.and_eq_true] at this
          exact this.2.2.2
  · rintro ⟨a, b, c, he, ha, hb, hc, hok, hbok, hcok⟩
    subst he
    have hsplit : splitAtChar '@' (a ++ '@' :: (b ++ '.' :: c)) = some (a, b ++ '.' :: c) :=
      splitAtChar_of_not_mem '@' a (b ++ '.' :: c) (okAll_not_mem_at a hok)
    unfold emailRegexMatch
    rw [hsplit]
    simp only [Bool.and_eq_true, domainMatch]
    refine ⟨⟨?_, hok⟩, ?_, ?_⟩
    · simp [List.isEmpty_iff, ha]
    · simp only [List.all_append, List.all_cons, Bool.and_eq_true]
      exact ⟨hbok, by decide, hcok⟩
    · apply List.elem_iff.mpr
      cases b with
      | nil => exact absurd rfl hb
      | cons x b' =>
        simp only [List.cons_append, List.drop_one, List.tail_cons]
        exact (mem_dropLast_iff '.' (b' ++ '.' :: c)).mpr ⟨b', c, rfl, hc⟩

/-- C8: `validateEmail` fails with "Email is required" on a blank input,
accepts exactly the `local@domain.tld`-shaped trimmed inputs described
by the regex, rejects everything else with "Please enter a valid email
address", and in particular rejects every string whose `@`-count is not
exactly one. -/
theorem validate_email_contract (s : String) :
    (trimStr s = "" →
      validateEmail s = { isValid := false, error := some "Email is required" })
    ∧ (trimStr s ≠ "" → ¬ emailShape (trimStr s).toList →
      validateEmail s = { isValid := false, error := some "Please enter a valid email address" })
    ∧ (emailShape (trimStr s).toList →
      validateEmail s = { isValid := true, error := none })
    ∧ (s.toList.count '@' ≠ 1 → (validateEmail s).isValid = false) := by
  refine ⟨?_, ?_, ?_, ?_⟩
  · intro h0
    simp [validateEmail, isValidEmail, h0]
  · intro h0 hshape
    have hm : emailRegexMatch (trimStr s).toList = false := by
      cases hb : emailRegexMatch (trimStr s).toList with
      | false => rfl
      | true => exact absurd ((emailRegexMatch_iff _).mp hb) hshape
    simp only [validateEmail, isValidEmail]
    rw [if_neg h0, if_pos]
    · rw [show (trimStr s).toList = (trimStr s).data from rfl] at hm
      simp [hm]
  · intro hshape
    have h0 : trimStr s ≠ "" := by
      intro hz
      rcases hshape with ⟨a, b, c, he, ha, -⟩
      rw [hz] at he
      cases a with
      | nil => exact ha rfl
      | cons x a' => simp at he
    have hm : emailRegexMatch (trimStr s).toList = true :=
      (emailRegexMatch_iff _).mpr hshape
    simp only [validateEmail, isValidEmail]
    rw [if_neg h0, if_neg]
    rw [show (trimStr s).toList = (trimStr s).data from rfl] at hm
    simp [hm]
  · intro hcount
    cases hb : (validateEmail s).isValid with
    | false => rfl
    | true =>
      exfalso
      apply hcount
      have hshape : emailShape (trimStr s).toList := by
        by_cases h0 : trimStr s = ""
        · rw [validateEmail, isValidEmail] at hb
          simp [h0] at hb
        · by_cases hm : emailRegexMatch (trimStr s).toList = true
          · exact (emailRegexMatch_iff _).mp hm
          · have hm2 : emailRegexMatch (trimStr s).data = false := by
              cases hx : emailRegexMatch (trimStr s).toList with
              | false => exact hx
              | true => exact absurd hx hm
            rw [validateEmail, isValidEmail] at hb
            simp [h0, hm2] at hb
      have h1 : (trimStr s).toList.count '@' = 1 := emailShape_count _ hshape
      rw [show (trimStr s).toList = trimChars s.toList from rfl,
        count_trimChars_at] at h1
      exact h1

/-- Instantiation of `validate_email_contract`: a well-shaped address is
accepted, a zero-`@` and a two-`@` string are rejected. -/
theorem validate_email_contract_witness :
    validateEmail "a@b.com" = { isValid := true, error := none }
    ∧ (validateEmail "nobody.example.com").isValid = false
    ∧ (validateEmail "a@@b.com").isValid = false := by
  refine ⟨?_, ?_, ?_⟩
  · exact (validate_email_contract "a@b.com").2.2.1
      ⟨['a'], ['b'], ['c', 'o', 'm'], by decide, by decide, by decide, by decide,
        by decide, by decide, by decide⟩
  · exact (validate_email_contract "nobody.example.com").2.2.2 (by decide)
  · exact (validate_email_contract "a@@b.com").2.2.2 (by decide)

theorem validateName_isValid (s : String) :
    (validateName s).isValid = true ↔ 2 ≤ (trimStr s).length ∧ (trimStr s).length ≤ 100 := by
  by_cases h0 : trimStr s = ""
  · have hl : (trimStr s).length = 0 := by rw [h0]; rfl
    simp [validateName, required, minLength, maxLength, h0, hl]
  · have hl : (trimStr s).length ≠ 0 := fun hc => h0 (str_eq_empty_of_length _ hc)
    by_cases h2 : (trimStr s).length < 2
    · simp [validateName, required, minLength, maxLength, h0, h2]
    · by_cases h3 : (trimStr s).length > 100
      · simp [validateName, required, minLength, maxLength, h0, h2, h3]
      · simp [validateName, required, minLength, maxLength, h0, h2, h3]; omega

theorem validateName_error_none (s : String) :
    (validateName s).isValid = true ↔ (validateName s).error = none := by
  by_cases h0 : trimStr s = ""
  · simp [validateName, required, minLength, maxLength, h0]
  · by_cases h2 : (trimStr s).length < 2
    · simp [validateName, required, minLength, maxLength, h0, h2]
    · by_cases h3 : (trimStr s).length > 100
      · simp [validateName, required, minLength, maxLength, h0, h2, h3]
      · simp [validateName, required, minLength, maxLength, h0, h2, h3]

theorem validateMessage_isValid (s : String) :
    (validateMessage s).isValid = true ↔ 10 ≤ (trimStr s).length ∧ (trimStr s).length ≤ 1000 := by
  by_cases h0 : trimStr s = ""
  · have hl : (trimStr s).length = 0 := by rw [h0]; rfl
    simp [validateMessage, required, minLength, maxLength, h0, hl]
  · have hl : (trimStr s).length ≠ 0 := fun hc => h0 (str_eq_empty_of_length _ hc)
    by_cases h2 : (trimStr s).length < 10
    · simp [validateMessage, required, minLength, maxLength, h0, h2]
    · by_cases h3 : (trimStr s).length > 1000
      · simp [validateMessage, required, minLength, maxLength, h0, h2, h3]
      · simp [validateMessage, required, minLength, maxLength, h0, h2, h3]; omega

theorem validateMessage_error_none (s : String) :
    (validateMessage s).isValid = true ↔ (validateMessage s).error = none := by
  by_cases h0 : trimStr s = ""
  · simp [validateMessage, required, minLength, maxLength, h0]
  · by_cases h2 : (trimStr s).length < 10
    · simp [validateMessage, required, minLength, maxLength, h0, h2]
    · by_cases h3 : (trimStr s).length > 1000
      · simp [validateMessage, required, minLength, maxLength, h0, h2, h3]
      · simp [validateMessage, required, minLength, maxLength, h0, h2, h3]

/-- C9: the length-window validators accept exactly their windows on the
trimmed input — `validateName` is valid iff the trimmed length lies in
[2, 100], `validateMessage` iff it lies in [10, 1000]; in every case
`isValid = true` holds exactly when `error = none`, and the empty
trimmed name yields the "Name is required" error. -/
theorem length_window_validators_contract (s : String) :
    ((validateName s).isValid = true ↔ 2 ≤ (trimStr s).length ∧ (trimStr s).length ≤ 100)
    ∧ ((validateMessage s).isValid = true ↔ 10 ≤ (trimStr s).length ∧ (trimStr s).length ≤ 1000)
    ∧ ((validateName s).isValid = true ↔ (validateName s).error = none)
    ∧ ((validateMessage s).isValid = true ↔ (validateMessage s).error = none)
    ∧ (trimStr s = "" → (validateName s).error = some "Name is required") :=
  ⟨validateName_isValid s, validateMessage_isValid s,
   validateName_error_none s, validateMessage_error_none s,
   fun h0 => by simp [validateName, required, h0]⟩

/-- Instantiation of `length_window_validators_contract` at concrete
boundary inputs. -/
theorem length_window_validators_contract_witness :
    (validateName "Al").isValid = true ∧ (validateName "A").isValid ≠ true
    ∧ (validateMessage "123456789").isValid ≠ true
    ∧ (validateMessage "1234567890").isValid = true
    ∧ (validateName "").error = some "Name is required" := by
  refine ⟨?_, ?_, ?_, ?_, ?_⟩
  · exact (length_window_validators_contract "Al").1.mpr (by decide)
  · intro h
    have := (length_window_validators_contract "A").1.mp h
    revert this; decide
  · intro h
    have := (length_window_validators_contract "123456789").2.1.mp h
    revert this; decide
  · exact (length_window_validators_contract "1234567890").2.1.mpr (by decide)
  · exact (length_window_validators_contract "").2.2.2.2 (by decide)

/-! ### Sorting and formatting utilities (src/utils — sorting module)

The date strings in the repository's data are ISO `YYYY-MM-DD` strings
(the property tests generate exactly this shape).  `new Date(s)` parses
such a string to a calendar date; `toLocaleDateString('en-US',
{month:'short', year:'numeric'})` renders it as "Jan 2024", under the
documented default interpretation (the parsed date's own month and
year).  We embed the parser for this shape explicitly. -/

structure ISODate where
  yearStr : String
  month : Nat
  day : Nat
deriving DecidableEq

def digitVal (c : Char) : Nat :=
  c.toNat - '0'.toNat

/-- Parse an ISO `YYYY-MM-DD` date string (4-digit year without a leading
zero, month 01–12, day 01–31) — the strings accepted by `new Date(...)`
in the repository's data domain. -/
def parseISODate (s : String) : Option ISODate :=
  match s.toList with
  | [y1, y2, y3, y4, h1, m1, m2, h2, d1, d2] =>
    let m := digitVal m1 * 10 + digitVal m2
    let d := digitVal d1 * 10 + digitVal d2
    if y1.isDigit ∧ y2.isDigit ∧ y3.isDigit ∧ y4.isDigit ∧ y1 ≠ '0' ∧
        h1 = '-' ∧ h2 = '-' ∧ m1.isDigit ∧ m2.isDigit ∧ d1.isDigit ∧ d2.isDigit ∧
        1 ≤ m ∧ m ≤ 12 ∧ 1 ≤ d ∧ d ≤ 31 then
      some { yearStr := String.mk [y1, y2, y3, y4], month := m, day := d }
    else
      none
  | _ => none

def yearVal (ys : String) : Nat :=
  ys.toList.foldl (fun acc c => acc * 10 + digitVal c) 0

/-- `new Date(s).getTime()`, up to an order-isomorphic re-coding on the
valid ISO dates (the comparator in `sortExperienceByDate` only ever uses
the order, and ties in the code are ties of the parsed date). -/
def dateVal (s : String) : Nat :=
  match parseISODate s with
  | some d => yearVal d.yearStr * 10000 + d.month * 100 + d.day
  | none => 0

/-- `Experience` record from src/types (the fields of the TypeScript
interface; `endDate: string | null` becomes `Option String`). -/
structure Experience where
  role : String
  organization : String
  startDate : String
  endDate : Option String
  description : String
deriving DecidableEq

/-- The order imposed by the comparator
`(a, b) => dateB - dateA` (descending by parsed start date): `a` may be
placed before `b` exactly when `b`'s start date is not newer. -/
def startDateGE (a b : Experience) : Prop :=
  dateVal b.startDate ≤ dateVal a.startDate

instance : DecidableRel startDateGE :=
  fun _ _ => Nat.decLe _ _

instance : IsTotal Experience startDateGE :=
  ⟨fun a b => Nat.le_total (dateVal b.startDate) (dateVal a.startDate)⟩

instance : IsTrans Experience startDateGE :=
  ⟨fun _ _ _ h1 h2 => Nat.le_trans h2 h1⟩

/-- `sortExperienceByDate(experiences)`: the source copies the array and
calls `Array.prototype.sort` (stable, per ES2019) with the comparator
`dateB - dateA`; a stable descending sort, modelled by Mathlib's stable
`insertionSort`. -/
def sortExperienceByDate (experiences : List Experience) : List Experience :=
  List.insertionSort startDateGE experiences

/-- `formatDate(dateString)`: `'Present'` for a falsy input (null or the
empty string), otherwise a short month name and the 4-digit year of the
parsed date (`'Invalid Date'` when `new Date` cannot parse it). -/
def monthNames : List String :=
  ["Jan", "Feb", "Mar", "Apr", "May", "Jun",
   "Jul", "Aug", "Sep", "Oct", "Nov", "Dec"]

def formatDate (dateString : Option String) : String :=
  match dateString with
  | none => "Present"
  | some s =>
    if s = "" then "Present"
    else
      match parseISODate s with
      | some d => monthNames.getD (d.month - 1) "" ++ " " ++ d.yearStr
      | none => "Invalid Date"

/-- `formatDuration(startDate, endDate)`. -/
def formatDuration (startDate : String) (endDate : Option String) : String :=
  formatDate (some startDate) ++ " - " ++ formatDate endDate

theorem sort_filter_stable (l : List Experience) (v : Nat) :
    (sortExperienceByDate l).filter (fun e => dateVal e.startDate == v)
      = l.filter (fun e => dateVal e.startDate == v) := by
  set p : Experience → Bool := fun e => dateVal e.startDate == v with hp
  have hpair : (l.filter p).Pairwise startDateGE := by
    apply List.pairwise_of_forall_mem_list
    intro a ha b hb
    have ha' : dateVal a.startDate = v := by
      have h := (List.mem_filter.mp ha).2
      rw [hp] at h
      simpa using h
    have hb' : dateVal b.startDate = v := by
      have h := (List.mem_filter.mp hb).2
      rw [hp] at h
      simpa using h
    unfold startDateGE
    rw [ha', hb']
  have h1 : List.Sublist (l.filter p) (sortExperienceByDate l) :=
    List.sublist_insertionSort hpair (List.filter_sublist l)
  have h2 : List.Sublist (l.filter p) ((sortExperienceByDate l).filter p) := by
    have := h1.filter p
    rwa [List.filter_filter, show (fun a => p a && p a) = p from funext fun a => Bool.and_self _]
      at this
  have h3 : ((sortExperienceByDate l).filter p).length = (l.filter p).length :=
    ((List.perm_insertionSort startDateGE l).filter p).length_eq
  exact (h2.eq_of_length h3.symm).symm

/-- C5: `sortExperienceByDate` returns a list of the same length with the
same multiset of records, ordered non-increasing by (parsed) start date;
ties preserve the original relative order (the sub-list of records with
any fixed start-date value is unchanged); the ordering never consults
`endDate` (rewriting the `endDate` fields commutes with the sort).  The
function is pure: it builds a new list and cannot mutate its input. -/
theorem sort_experience_contract (l : List Experience) :
    (sortExperienceByDate l).length = l.length
    ∧ List.Perm (sortExperienceByDate l) l
    ∧ List.Pairwise startDateGE (sortExperienceByDate l)
    ∧ (∀ v : Nat, (sortExperienceByDate l).filter (fun e => dateVal e.startDate == v)
        = l.filter (fun e => dateVal e.startDate == v))
    ∧ (∀ g : Experience → Option String,
        sortExperienceByDate (l.map (fun e => { e with endDate := g e }))
          = (sortExperienceByDate l).map (fun e => { e with endDate := g e })) := by
  refine ⟨List.length_insertionSort _ l, List.perm_insertionSort _ l,
    List.sorted_insertionSort _ l, sort_filter_stable l, ?_⟩
  intro g
  exact (List.map_insertionSort startDateGE startDateGE
    (fun e => { e with endDate := g e }) l
    (fun a _ b _ => Iff.rfl)).symm

/-! ### Lemmas about prefixes, substrings and occurrence counts -/

theorem prefix_cons_head (x : Char) (pat u : List Char)
    (h : (x :: pat).isPrefixOf u = true) :
    ∃ u', u = x :: u' ∧ pat.isPrefixOf u' = true := by
  cases u with
  | nil => simp [List.isPrefixOf] at h
  | cons v u' =>
    simp only [List.isPrefixOf, Bool.and_eq_true, beq_iff_eq] at h
    exact ⟨u', by rw [h.1], h.2⟩

theorem isPrefixOf_subset (pat : List Char) :
    ∀ u, pat.isPrefixOf u = true → ∀ c ∈ pat, c ∈ u := by
  induction pat with
  | nil => intro u _ c hc; simp at hc
  | cons x pat' ih =>
    intro u h c hc
    rcases prefix_cons_head x pat' u h with ⟨u', rfl, h'⟩
    rcases List.mem_cons.mp hc with rfl | hc'
    · exact List.mem_cons_self _ _
    · exact List.mem_cons_of_mem _ (ih u' h' c hc')

theorem isPrefixOf_append_self (pat : List Char) :
    ∀ t, pat.isPrefixOf (pat ++ t) = true := by
  induction pat with
  | nil => intro t; simp [List.isPrefixOf]
  | cons x pat' ih =>
    intro t
    simp only [List.cons_append, List.isPrefixOf, Bool.and_eq_true, beq_self_eq_true,
      true_and]
    exact ih t

theorem containsSub_mem (pat : List Char) :
    ∀ s, containsSub s pat = true → ∀ c ∈ pat, c ∈ s := by
  intro s
  induction s with
  | nil =>
    intro h c hc
    unfold containsSub at h
    simp only [Bool.or_false] at h
    exact isPrefixOf_subset pat [] h c hc
  | cons x rest ih =>
    intro h c hc
    unfold containsSub at h
    rcases Bool.or_eq_true_iff.mp h with hp | hr
    · exact isPrefixOf_subset pat (x :: rest) hp c hc
    · exact List.mem_cons_of_mem _ (ih hr c hc)

theorem containsSub_of_append (pat : List Char) :
    ∀ a b, containsSub (a ++ (pat ++ b)) pat = true := by
  intro a
  induction a with
  | nil =>
    intro b
    unfold containsSub
    rw [List.nil_append, isPrefixOf_append_self pat b]
    simp
  | cons x a' ih =>
    intro b
    unfold containsSub
    rw [List.cons_append]
    rcases hp : pat with _ | ⟨p1, pat'⟩
    · simp [List.isPrefixOf]
    · rw [← hp]
      have := ih b
      simp [this]

theorem countOcc_sep_zero :
    ∀ s : List Char, '-' ∉ s → countOcc [' ', '-', ' '] s = 0 := by
  intro s
  induction s with
  | nil => intro _; rfl
  | cons c rest ih =>
    intro hm
    have hr : '-' ∉ rest := fun h => hm (List.mem_cons_of_mem _ h)
    have hpre : ([' ', '-', ' '].isPrefixOf (c :: rest)) = false := by
      cases hb : [' ', '-', ' '].isPrefixOf (c :: rest) with
      | false => rfl
      | true =>
        rcases prefix_cons_head _ _ _ hb with ⟨u1, he1, hb2⟩
        rcases prefix_cons_head _ _ _ hb2 with ⟨u2, he2, _⟩
        exact absurd (he2 ▸ List.mem_cons_self '-' u2)
          (by rw [List.cons.injEq] at he1; exact he1.2 ▸ hr)
    rw [countOcc, hpre, ih hr]
    simp

theorem countOcc_boundary :
    ∀ A B : List Char, '-' ∉ A → '-' ∉ B →
      countOcc [' ', '-', ' '] (A ++ [' ', '-', ' '] ++ B) = 1 := by
  intro A
  induction A with
  | nil =>
    intro B _ hB
    rw [List.nil_append]
    have h1 : countOcc [' ', '-', ' '] ((' ' :: B : List Char)) = 0 :=
      countOcc_sep_zero _ (by
        intro h
        rcases List.mem_cons.mp h with h' | h'
        · exact absurd h'.symm (by decide)
        · exact hB h')
    have h2 : countOcc [' ', '-', ' '] (('-' :: ' ' :: B : List Char)) = 0 := by
      rw [countOcc]
      have : ([' ', '-', ' '].isPrefixOf ('-' :: ' ' :: B)) = false := by
        simp [List.isPrefixOf]
      rw [this, h1]
      simp
    rw [show ([' ', '-', ' '] : List Char) ++ B = ' ' :: '-' :: ' ' :: B from rfl]
    rw [countOcc]
    have hp : ([' ', '-', ' '].isPrefixOf (' ' :: '-' :: ' ' :: B)) = true := by
      have := isPrefixOf_append_self [' ', '-', ' '] B
      simp only [List.cons_append, List.nil_append] at this
      exact this
    rw [hp, h2]
    simp
  | cons a A' ih =>
    intro B hA hB
    have hA' : '-' ∉ A' := fun h => hA (List.mem_cons_of_mem _ h)
    have hane : a ≠ '-' := fun h => hA (h ▸ List.mem_cons_self _ _)
    rw [List.cons_append, List.cons_append, countOcc]
    have hpre : ([' ', '-', ' '].isPrefixOf (a :: (A' ++ [' ', '-', ' '] ++ B))) = false := by
      cases hb : [' ', '-', ' '].isPrefixOf (a :: (A' ++ [' ', '-', ' '] ++ B)) with
      | false => rfl
      | true =>
        exfalso
        rcases prefix_cons_head _ _ _ hb with ⟨u1, he1, hb2⟩
        rcases prefix_cons_head _ _ _ hb2 with ⟨u2, he2, _⟩
        rw [List.cons.injEq] at he1
        cases A' with
        | nil =>
          rw [List.nil_append, List.cons_append] at he1
          have := he1.2
          rw [he2] at this
          exact absurd (List.cons.injEq .. ▸ this).1 (by decide)
        | cons x A'' =>
          rw [List.cons_append, List.cons_append] at he1
          have := he1.2
          rw [he2] at this
          have hx : x = '-' := ((List.cons.injEq ..).mp this).1
          exact hA (List.mem_cons_of_mem _ (hx ▸ List.mem_cons_self x A''))
    rw [hpre]
    have := ih B hA' hB
    rw [List.append_assoc] at this ⊢
    rw [this]
    simp

/-! ### Facts extracted from a successful ISO date parse -/

theorem parseISODate_props (s : String) (d : ISODate)
    (h : parseISODate s = some d) :
    s ≠ "" ∧ d.yearStr.length = 4 ∧ (∀ c ∈ d.yearStr.toList, c.isDigit = true)
    ∧ 1 ≤ d.month ∧ d.month ≤ 12 := by
  unfold parseISODate at h
  split at h
  next y1 y2 y3 y4 h1 m1 m2 h2 d1 d2 heq =>
    dsimp only at h
    split at h
    next hcond =>
      obtain ⟨hy1, hy2, hy3, hy4, hz, hh1, hh2, hm1, hm2, hd1, hd2, hm, hM, hd, hD⟩ := hcond
      injection h with h
      subst h
      refine ⟨?_, rfl, ?_, hm, hM⟩
      · intro hs
        rw [hs] at heq
        simp at heq
      · intro c hc
        have : c = y1 ∨ c = y2 ∨ c = y3 ∨ c = y4 := by
          simpa using hc
        rcases this with rfl | rfl | rfl | rfl
        · exact hy1
        · exact hy2
        · exact hy3
        · exact hy4
    next => exact absurd h (by simp)
  next => exact absurd h (by simp)

theorem formatDate_of_parse (s : String) (d : ISODate)
    (h : parseISODate s = some d) :
    formatDate (some s) = monthNames.getD (d.month - 1) "" ++ " " ++ d.yearStr := by
  have hne : s ≠ "" := (parseISODate_props s d h).1
  have hdata : parseISODate s = some d := h
  simp only [formatDate, if_neg hne]
  rw [hdata]

theorem monthNames_no_dash_no_P :
    ∀ mn ∈ monthNames, '-' ∉ mn.toList ∧ 'P' ∉ mn.toList := by
  decide

theorem digit_char_ne (c : Char) (h : c.isDigit = true) : c ≠ '-' ∧ c ≠ 'P' := by
  constructor
  · intro hc; rw [hc] at h; exact absurd h (by decide)
  · intro hc; rw [hc] at h; exact absurd h (by decide)

theorem getD_monthNames_mem (m : Nat) (h1 : 1 ≤ m) (h2 : m ≤ 12) :
    monthNames.getD (m - 1) "" ∈ monthNames := by
  have hlt : m - 1 < monthNames.length := by
    simp only [monthNames, List.length]
    omega
  rw [List.getD_eq_getElem _ _ hlt]
  exact List.getElem_mem hlt

theorem formatDate_chars (s : String) (d : ISODate)
    (h : parseISODate s = some d) :
    '-' ∉ (formatDate (some s)).toList ∧ 'P' ∉ (formatDate (some s)).toList := by
  obtain ⟨-, -, hdig, hm1, hm2⟩ := parseISODate_props s d h
  rw [formatDate_of_parse s d h]
  have hmem := getD_monthNames_mem d.month hm1 hm2
  have hmn := monthNames_no_dash_no_P _ hmem
  have hsplit :
      (monthNames.getD (d.month - 1) "" ++ " " ++ d.yearStr).toList
        = (monthNames.getD (d.month - 1) "").toList ++ [' '] ++ d.yearStr.toList := rfl
  rw [hsplit]
  constructor
  · intro hmm
    rcases List.mem_append.mp hmm with hmm' | hy
    · rcases List.mem_append.mp hmm' with hm' | hsp
      · exact hmn.1 hm'
      · simp at hsp
    · exact (digit_char_ne _ (hdig _ hy)).1 rfl
  · intro hmm
    rcases List.mem_append.mp hmm with hmm' | hy
    · rcases List.mem_append.mp hmm' with hm' | hsp
      · exact hmn.2 hm'
      · simp at hsp
    · exact (digit_char_ne _ (hdig _ hy)).2 rfl

/-- C6: for a date-string input that parses, `formatDate` renders the
date's OWN month and year: the result is exactly the entry of the short
month-name table at index `month - 1` (a member of that Jan..Dec table),
followed by the date's own 4-digit year; in particular
`formatDuration("2023-01-15", null) = "Jan 2023 - Present"`.
(The rendering models the documented default interpretation of
`toLocaleDateString('en-US', {month:'short', year:'numeric'})`.) -/
theorem format_date_contract (s : String) (d : ISODate)
    (h : parseISODate s = some d) :
    formatDate (some s) = monthNames.getD (d.month - 1) "" ++ " " ++ d.yearStr
    ∧ monthNames.getD (d.month - 1) "" ∈ monthNames
    ∧ d.yearStr.length = 4
    ∧ (∀ c ∈ d.yearStr.toList, c.isDigit = true)
    ∧ formatDuration "2023-01-15" none = "Jan 2023 - Present" := by
  obtain ⟨hne, hlen, hdig, hm1, hm2⟩ := parseISODate_props s d h
  exact ⟨formatDate_of_parse s d h,
    getD_monthNames_mem d.month hm1 hm2,
    hlen, hdig, rfl⟩

/-- Instantiation of `format_date_contract` at `"2023-01-15"` (month 1,
so the rendered month is the table's first entry, "Jan"). -/
theorem format_date_contract_witness :
    formatDate (some "2023-01-15") = monthNames.getD 0 "" ++ " " ++ "2023"
    ∧ monthNames.getD 0 "" = "Jan"
    ∧ formatDuration "2023-01-15" none = "Jan 2023 - Present" := by
  have h : parseISODate "2023-01-15"
      = some { yearStr := "2023", month := 1, day := 15 } := rfl
  have hc := format_date_contract "2023-01-15" _ h
  exact ⟨hc.1, rfl, hc.2.2.2.2⟩

/-- C7: for parseable date arguments, `formatDuration` is the
concatenation `formatDate(start) ++ " - " ++ formatDate(endOrNull)`, the
separator `" - "` occurs exactly once in the result, and `"Present"`
occurs in the result exactly when the end date is null. -/
theorem format_duration_contract (start : String) (endD : Option String)
    (ds : ISODate) (hs : parseISODate start = some ds)
    (he : endD = none ∨ ∃ e de, endD = some e ∧ parseISODate e = some de) :
    formatDuration start endD = formatDate (some start) ++ " - " ++ formatDate endD
    ∧ countOcc " - ".toList (formatDuration start endD).toList = 1
    ∧ (containsStr (formatDuration start endD) "Present" = true ↔ endD = none) := by
  have hsplit : (formatDuration start endD).toList
      = (formatDate (some start)).toList ++ [' ', '-', ' '] ++ (formatDate endD).toList :=
    rfl
  have hA := formatDate_chars start ds hs
  have hB : '-' ∉ (formatDate endD).toList := by
    rcases he with rfl | ⟨e, de, rfl, hpe⟩
    · decide
    · exact (formatDate_chars e de hpe).1
  refine ⟨rfl, ?_, ?_⟩
  · rw [show (" - ".toList : List Char) = [' ', '-', ' '] from rfl, hsplit]
    exact countOcc_boundary _ _ hA.1 hB
  · constructor
    · intro hcont
      rcases he with rfl | ⟨e, de, rfl, hpe⟩
      · rfl
      · exfalso
        have hPmem : 'P' ∈ (formatDuration start (some e)).toList :=
          containsSub_mem _ _ hcont 'P' (by decide)
        rw [hsplit] at hPmem
        rcases List.mem_append.mp hPmem with hP1 | hPB
        · rcases List.mem_append.mp hP1 with hPA | hPsep
          · exact hA.2 hPA
          · simp at hPsep
        · exact (formatDate_chars e de hpe).2 hPB
    · rintro rfl
      show containsSub (formatDuration start none).toList "Present".toList = true
      have h2 : (formatDuration start none).toList
          = ((formatDate (some start)).toList ++ [' ', '-', ' '])
              ++ ("Present".toList ++ []) := by
        rw [hsplit]
        simp
        rfl
      rw [h2]
      exact containsSub_of_append _ _ _

/-- Instantiation of `format_duration_contract`: a null end date yields a
result containing "Present", and a concrete pair of dates yields exactly
one separator. -/
theorem format_duration_contract_witness :
    containsStr (formatDuration "2023-01-15" none) "Present" = true
    ∧ countOcc " - ".toList (formatDuration "2023-01-15" (some "2024-06-01")).toList = 1 := by
  constructor
  · exact (format_duration_contract "2023-01-15" none
      { yearStr := "2023", month := 1, day := 15 } rfl (Or.inl rfl)).2.2.mpr rfl
  · exact (format_duration_contract "2023-01-15" (some "2024-06-01")
      { yearStr := "2023", month := 1, day := 15 } rfl
      (Or.inr ⟨"2024-06-01", { yearStr := "2024", month := 6, day := 1 }, rfl, rfl⟩)).2.1

/-- C10: `formatDate` treats the empty string like null (JavaScript's
falsy test `!dateString`): `formatDate("")` is `"Present"`, so
`formatDuration("", e)` contains `"Present"` for every end argument —
the "Present only for a null end date" reading of `formatDuration`
needs the start argument to be a non-empty date string. -/
theorem format_duration_empty_start :
    formatDate (some "") = "Present"
    ∧ (∀ e : Option String, containsStr (formatDuration "" e) "Present" = true)
    ∧ formatDuration "" (some "2024-06-01") = "Present - Jun 2024" := by
  refine ⟨rfl, ?_, rfl⟩
  intro e
  show containsSub (formatDuration "" e).toList "Present".toList = true
  have h2 : (formatDuration "" e).toList
      = [] ++ ("Present".toList ++ ([' ', '-', ' '] ++ (formatDate e).toList)) := by
    show ("Present".toList ++ [' ', '-', ' ']) ++ (formatDate e).toList = _
    simp
  rw [h2]
  exact containsSub_of_append _ _ _


/-! ### Chat widget (src/components/ChatWidget/ChatWidget.tsx)

The widget reads a module-level `profile` object (from profile.json,
which is not part of the sources; only its fields email / name / title /
location are used, spliced verbatim into reply templates).  The embedding
therefore takes the profile as an explicit parameter. -/

structure Profile where
  name : String
  location : String
  title : String
  email : String

/-- The default (fallback) response at the end of `getAutoReply`. -/
def defaultReply (p : Profile) : String :=
  "Thanks for your message! I\x27m currently away but I\x27ll get back to you as soon as possible. You can also reach me directly at " ++ p.email ++ ". Looking forward to connecting with you!"

/-- `getAutoReply(userMessage)`: the widget's canned-response matcher —
lowercase the message, then walk the fixed chain of keyword checks
(`lowerMessage.includes(...)`), returning the first matching rule's
reply, and the default reply when nothing matches. -/
def getAutoReply (p : Profile) (userMessage : String) : String :=
  let lowerMessage := lowerStr userMessage
  if containsStr lowerMessage "hi" || containsStr lowerMessage "hello" || containsStr lowerMessage "hey" || containsStr lowerMessage "good morning" || containsStr lowerMessage "good afternoon" || containsStr lowerMessage "good evening" then
    "Hi there! Thanks for reaching out. I\x27m currently away, but feel free to leave a message or email me at " ++ p.email ++ ". I\x27ll get back to you soon!"
  else if containsStr lowerMessage "bye" || containsStr lowerMessage "goodbye" || containsStr lowerMessage "see you" || containsStr lowerMessage "take care" then
    "Thanks for chatting! Feel free to come back anytime. Have a great day! 👋"
  else if containsStr lowerMessage "thank" || containsStr lowerMessage "thanks" || containsStr lowerMessage "appreciate" then
    "You\x27re welcome! Let me know if there\x27s anything else I can help with. 😊"
  else if containsStr lowerMessage "need a website" || containsStr lowerMessage "want a website" || containsStr lowerMessage "build me a website" || containsStr lowerMessage "create a website" || containsStr lowerMessage "make a website" || containsStr lowerMessage "looking for a website" then
    "I\x27d love to help you build a website! Please tell me more about your business and what kind of website you\x27re looking for. I\x27ll get back to you with ideas and a quote. 🚀"
  else if containsStr lowerMessage "business" || containsStr lowerMessage "company" || containsStr lowerMessage "startup" || containsStr lowerMessage "enterprise" then
    "I specialize in creating professional websites for businesses! Whether you need a landing page, company website, or e-commerce store, I can help. Tell me more about your business!"
  else if containsStr lowerMessage "online store" || containsStr lowerMessage "e-commerce" || containsStr lowerMessage "ecommerce" || containsStr lowerMessage "sell online" || containsStr lowerMessage "shop" || containsStr lowerMessage "selling products" then
    "I can build you an online store to sell your products! I work with modern e-commerce solutions. Let me know what products you\x27re selling and I\x27ll help you get started."
  else if containsStr lowerMessage "landing page" || containsStr lowerMessage "one page" || containsStr lowerMessage "single page" || containsStr lowerMessage "simple website" then
    "A landing page is a great way to showcase your business! I can create a beautiful, responsive landing page that converts visitors into customers. What\x27s your business about?"
  else if containsStr lowerMessage "mobile app" || containsStr lowerMessage "android" || containsStr lowerMessage "ios" || containsStr lowerMessage "app for my" || containsStr lowerMessage "phone app" then
    "I also develop mobile apps! Tell me about your app idea - what problem does it solve? I\x27d love to help bring your vision to life. 📱"
  else if containsStr lowerMessage "redesign" || containsStr lowerMessage "revamp" || containsStr lowerMessage "update my website" || containsStr lowerMessage "improve my website" || containsStr lowerMessage "fix my website" || containsStr lowerMessage "old website" then
    "I can help modernize your existing website! Share your current website URL and tell me what you\x27d like to improve. I\x27ll give you recommendations and a quote."
  else if containsStr lowerMessage "logo" || containsStr lowerMessage "branding" || containsStr lowerMessage "brand" || containsStr lowerMessage "design" then
    "While my main focus is web development, I can help with basic branding and design for your website. Tell me more about your brand vision!"
  else if containsStr lowerMessage "restaurant" || containsStr lowerMessage "food" || containsStr lowerMessage "cafe" || containsStr lowerMessage "menu" || containsStr lowerMessage "catering" then
    "I can create a beautiful website for your restaurant or food business! Features like online menus, reservations, and ordering systems are all possible. Tell me more about your place!"
  else if containsStr lowerMessage "salon" || containsStr lowerMessage "beauty" || containsStr lowerMessage "spa" || containsStr lowerMessage "hair" || containsStr lowerMessage "nail" || containsStr lowerMessage "makeup" then
    "I\x27d love to create a stunning website for your beauty business! I can include booking systems, service menus, and galleries to showcase your work. What services do you offer?"
  else if containsStr lowerMessage "real estate" || containsStr lowerMessage "property" || containsStr lowerMessage "house" || containsStr lowerMessage "apartment" || containsStr lowerMessage "rental" then
    "I can build a professional real estate website with property listings, search features, and contact forms. Tell me more about your real estate business!"
  else if containsStr lowerMessage "portfolio" || containsStr lowerMessage "personal website" || containsStr lowerMessage "my own website" || containsStr lowerMessage "showcase my work" then
    "A portfolio website is perfect for showcasing your work! I can create something similar to this site, customized for you. What kind of work do you want to display?"
  else if containsStr lowerMessage "blog" || containsStr lowerMessage "write" || containsStr lowerMessage "articles" || containsStr lowerMessage "content" then
    "I can set up a beautiful blog for you! Whether it\x27s personal blogging or content marketing for your business, I\x27ve got you covered. What topics will you write about?"
  else if containsStr lowerMessage "booking" || containsStr lowerMessage "appointment" || containsStr lowerMessage "schedule" || containsStr lowerMessage "reservation" then
    "I can integrate booking and appointment systems into your website! This is great for service-based businesses. What kind of appointments do you need to manage?"
  else if containsStr lowerMessage "how long" || containsStr lowerMessage "timeline" || containsStr lowerMessage "deadline" || containsStr lowerMessage "when can" || containsStr lowerMessage "turnaround" then
    "Project timelines depend on complexity. A simple landing page takes about 1-2 weeks, while larger projects may take 4-8 weeks. Share your requirements and deadline, and I\x27ll let you know if I can meet it!"
  else if containsStr lowerMessage "how much" || containsStr lowerMessage "payment" || containsStr lowerMessage "pay" || containsStr lowerMessage "deposit" || containsStr lowerMessage "installment" then
    "Pricing varies based on project scope. I offer flexible payment options including deposits and installments. Let\x27s discuss your project first, and I\x27ll provide a detailed quote!"
  else if containsStr lowerMessage "maintenance" || containsStr lowerMessage "update" || containsStr lowerMessage "manage" || containsStr lowerMessage "after" || containsStr lowerMessage "support after" then
    "Yes, I offer website maintenance and support! I can help you keep your site updated, secure, and running smoothly. We can discuss a maintenance plan that works for you."
  else if containsStr lowerMessage "domain" || containsStr lowerMessage "hosting" || containsStr lowerMessage "server" || containsStr lowerMessage "publish" || containsStr lowerMessage "go live" then
    "I can help you with domain registration and hosting setup! I\x27ll guide you through the process and make sure your website goes live smoothly. 🌐"
  else if containsStr lowerMessage "seo" || containsStr lowerMessage "google" || containsStr lowerMessage "search engine" || containsStr lowerMessage "ranking" || containsStr lowerMessage "found online" then
    "I build websites with SEO best practices in mind! This helps your site rank better on Google. I can also provide basic SEO optimization as part of the project."
  else if containsStr lowerMessage "facebook" || containsStr lowerMessage "instagram" || containsStr lowerMessage "twitter" || containsStr lowerMessage "social media integration" then
    "I can integrate your social media accounts into your website! This includes feeds, share buttons, and links to your profiles. Which platforms do you use?"
  else if containsStr lowerMessage "project" || containsStr lowerMessage "work" || containsStr lowerMessage "collaborate" then
    "I\x27d love to discuss potential projects! Please share some details about what you have in mind, and I\x27ll respond as soon as I\x27m available. You can also check out my Projects section to see my previous work!"
  else if containsStr lowerMessage "hire" || containsStr lowerMessage "job" || containsStr lowerMessage "opportunity" || containsStr lowerMessage "position" || containsStr lowerMessage "vacancy" || containsStr lowerMessage "recruit" then
    "Thanks for considering me! I\x27m always open to new opportunities. Please send the details to my email and I\x27ll review them promptly. Looking forward to hearing from you!"
  else if containsStr lowerMessage "contact" || containsStr lowerMessage "email" || containsStr lowerMessage "reach" || containsStr lowerMessage "phone" || containsStr lowerMessage "call" then
    "You can reach me at " ++ p.email ++ ". I typically respond within 24 hours! You can also find me on LinkedIn and GitHub through the social links on this page."
  else if containsStr lowerMessage "skill" || containsStr lowerMessage "tech" || containsStr lowerMessage "stack" || containsStr lowerMessage "programming" || containsStr lowerMessage "language" then
    "Check out my Skills section on this page to see my tech stack! I work with React, TypeScript, and various modern web technologies. Feel free to ask about any specific technology."
  else if containsStr lowerMessage "experience" || containsStr lowerMessage "background" || containsStr lowerMessage "career" || containsStr lowerMessage "history" then
    "You can find my professional experience in the Experience section of this page. I\x27m a BSIT student with hands-on experience in web and mobile development!"
  else if containsStr lowerMessage "education" || containsStr lowerMessage "school" || containsStr lowerMessage "university" || containsStr lowerMessage "degree" || containsStr lowerMessage "study" then
    "I\x27m currently a 4th year BS Information Technology student. Check out my Experience section for more details about my educational background!"
  else if containsStr lowerMessage "available" || containsStr lowerMessage "free" || containsStr lowerMessage "busy" then
    "I\x27m currently open to freelance projects and job opportunities! Feel free to share your timeline and requirements, and I\x27ll let you know my availability."
  else if containsStr lowerMessage "price" || containsStr lowerMessage "rate" || containsStr lowerMessage "cost" || containsStr lowerMessage "budget" || containsStr lowerMessage "charge" || containsStr lowerMessage "fee" then
    "Pricing depends on the project scope and requirements. Let\x27s discuss your project details first, and I\x27ll provide a fair quote. Send me the specifics via email!"
  else if containsStr lowerMessage "service" || containsStr lowerMessage "offer" || containsStr lowerMessage "provide" || containsStr lowerMessage "do you do" then
    "I offer web development, mobile app development, and UI/UX design services. Check out my Projects section to see examples of my work!"
  else if containsStr lowerMessage "resume" || containsStr lowerMessage "cv" || containsStr lowerMessage "curriculum" then
    "You can download my resume from the link on this page. It has all my skills, experience, and education details!"
  else if containsStr lowerMessage "location" || containsStr lowerMessage "where" || containsStr lowerMessage "based" || containsStr lowerMessage "country" || containsStr lowerMessage "city" then
    "I\x27m based in " ++ p.location ++ ". I\x27m open to remote work and collaborations worldwide!"
  else if containsStr lowerMessage "help" || containsStr lowerMessage "support" || containsStr lowerMessage "assist" then
    "I\x27m happy to help! You can ask me about my services, pricing, timeline, or anything else. What would you like to know?"
  else if containsStr lowerMessage "who are you" || containsStr lowerMessage "about you" || containsStr lowerMessage "tell me about" || containsStr lowerMessage "introduce" then
    "I\x27m " ++ p.name ++ ", a " ++ p.title ++ ". I help businesses and individuals create beautiful, functional websites and apps. Check out the About section to learn more!"
  else if containsStr lowerMessage "nice" || containsStr lowerMessage "great" || containsStr lowerMessage "awesome" || containsStr lowerMessage "cool" || containsStr lowerMessage "amazing" || containsStr lowerMessage "love" || containsStr lowerMessage "beautiful" || containsStr lowerMessage "impressive" then
    "Thank you so much! I really appreciate the kind words. 😊 Let me know if there\x27s anything I can help you with!"
  else if containsStr lowerMessage "interested" || containsStr lowerMessage "want to work" || containsStr lowerMessage "work together" || containsStr lowerMessage "work with you" then
    "That\x27s great to hear! I\x27d love to work with you. Tell me more about what you need, and let\x27s make it happen! 🎯"
  else if containsStr lowerMessage "?" || containsStr lowerMessage "how" || containsStr lowerMessage "what" || containsStr lowerMessage "when" || containsStr lowerMessage "why" || containsStr lowerMessage "can you" then
    "Great question! I\x27m currently away, but I\x27ll get back to you with a detailed answer soon. Feel free to email me for a faster response!"
  else defaultReply p

def autoReplyRules (p : Profile) : List (List String × String) :=
  [
   (["hi", "hello", "hey", "good morning", "good afternoon", "good evening"],
    "Hi there! Thanks for reaching out. I\x27m currently away, but feel free to leave a message or email me at " ++ p.email ++ ". I\x27ll get back to you soon!"),
   (["bye", "goodbye", "see you", "take care"],
    "Thanks for chatting! Feel free to come back anytime. Have a great day! 👋"),
   (["thank", "thanks", "appreciate"],
    "You\x27re welcome! Let me know if there\x27s anything else I can help with. 😊"),
   (["need a website", "want a website", "build me a website", "create a website", "make a website", "looking for a website"],
    "I\x27d love to help you build a website! Please tell me more about your business and what kind of website you\x27re looking for. I\x27ll get back to you with ideas and a quote. 🚀"),
   (["business", "company", "startup", "enterprise"],
    "I specialize in creating professional websites for businesses! Whether you need a landing page, company website, or e-commerce store, I can help. Tell me more about your business!"),
   (["online store", "e-commerce", "ecommerce", "sell online", "shop", "selling products"],
    "I can build you an online store to sell your products! I work with modern e-commerce solutions. Let me know what products you\x27re selling and I\x27ll help you get started."),
   (["landing page", "one page", "single page", "simple website"],
    "A landing page is a great way to showcase your business! I can create a beautiful, responsive landing page that converts visitors into customers. What\x27s your business about?"),
   (["mobile app", "android", "ios", "app for my", "phone app"],
    "I also develop mobile apps! Tell me about your app idea - what problem does it solve? I\x27d love to help bring your vision to life. 📱"),
   (["redesign", "revamp", "update my website", "improve my website", "fix my website", "old website"],
    "I can help modernize your existing website! Share your current website URL and tell me what you\x27d like to improve. I\x27ll give you recommendations and a quote."),
   (["logo", "branding", "brand", "design"],
    "While my main focus is web development, I can help with basic branding and design for your website. Tell me more about your brand vision!"),
   (["restaurant", "food", "cafe", "menu", "catering"],
    "I can create a beautiful website for your restaurant or food business! Features like online menus, reservations, and ordering systems are all possible. Tell me more about your place!"),
   (["salon", "beauty", "spa", "hair", "nail", "makeup"],
    "I\x27d love to create a stunning website for your beauty business! I can include booking systems, service menus, and galleries to showcase your work. What services do you offer?"),
   (["real estate", "property", "house", "apartment", "rental"],
    "I can build a professional real estate website with property listings, search features, and contact forms. Tell me more about your real estate business!"),
   (["portfolio", "personal website", "my own website", "showcase my work"],
    "A portfolio website is perfect for showcasing your work! I can create something similar to this site, customized for you. What kind of work do you want to display?"),
   (["blog", "write", "articles", "content"],
    "I can set up a beautiful blog for you! Whether it\x27s personal blogging or content marketing for your business, I\x27ve got you covered. What topics will you write about?"),
   (["booking", "appointment", "schedule", "reservation"],
    "I can integrate booking and appointment systems into your website! This is great for service-based businesses. What kind of appointments do you need to manage?"),
   (["how long", "timeline", "deadline", "when can", "turnaround"],
    "Project timelines depend on complexity. A simple landing page takes about 1-2 weeks, while larger projects may take 4-8 weeks. Share your requirements and deadline, and I\x27ll let you know if I can meet it!"),
   (["how much", "payment", "pay", "deposit", "installment"],
    "Pricing varies based on project scope. I offer flexible payment options including deposits and installments. Let\x27s discuss your project first, and I\x27ll provide a detailed quote!"),
   (["maintenance", "update", "manage", "after", "support after"],
    "Yes, I offer website maintenance and support! I can help you keep your site updated, secure, and running smoothly. We can discuss a maintenance plan that works for you."),
   (["domain", "hosting", "server", "publish", "go live"],
    "I can help you with domain registration and hosting setup! I\x27ll guide you through the process and make sure your website goes live smoothly. 🌐"),
   (["seo", "google", "search engine", "ranking", "found online"],
    "I build websites with SEO best practices in mind! This helps your site rank better on Google. I can also provide basic SEO optimization as part of the project."),
   (["facebook", "instagram", "twitter", "social media integration"],
    "I can integrate your social media accounts into your website! This includes feeds, share buttons, and links to your profiles. Which platforms do you use?"),
   (["project", "work", "collaborate"],
    "I\x27d love to discuss potential projects! Please share some details about what you have in mind, and I\x27ll respond as soon as I\x27m available. You can also check out my Projects section to see my previous work!"),
   (["hire", "job", "opportunity", "position", "vacancy", "recruit"],
    "Thanks for considering me! I\x27m always open to new opportunities. Please send the details to my email and I\x27ll review them promptly. Looking forward to hearing from you!"),
   (["contact", "email", "reach", "phone", "call"],
    "You can reach me at " ++ p.email ++ ". I typically respond within 24 hours! You can also find me on LinkedIn and GitHub through the social links on this page."),
   (["skill", "tech", "stack", "programming", "language"],
    "Check out my Skills section on this page to see my tech stack! I work with React, TypeScript, and various modern web technologies. Feel free to ask about any specific technology."),
   (["experience", "background", "career", "history"],
    "You can find my professional experience in the Experience section of this page. I\x27m a BSIT student with hands-on experience in web and mobile development!"),
   (["education", "school", "university", "degree", "study"],
    "I\x27m currently a 4th year BS Information Technology student. Check out my Experience section for more details about my educational background!"),
   (["available", "free", "busy"],
    "I\x27m currently open to freelance projects and job opportunities! Feel free to share your timeline and requirements, and I\x27ll let you know my availability."),
   (["price", "rate", "cost", "budget", "charge", "fee"],
    "Pricing depends on the project scope and requirements. Let\x27s discuss your project details first, and I\x27ll provide a fair quote. Send me the specifics via email!"),
   (["service", "offer", "provide", "do you do"],
    "I offer web development, mobile app development, and UI/UX design services. Check out my Projects section to see examples of my work!"),
   (["resume", "cv", "curriculum"],
    "You can download my resume from the link on this page. It has all my skills, experience, and education details!"),
   (["location", "where", "based", "country", "city"],
    "I\x27m based in " ++ p.location ++ ". I\x27m open to remote work and collaborations worldwide!"),
   (["help", "support", "assist"],
    "I\x27m happy to help! You can ask me about my services, pricing, timeline, or anything else. What would you like to know?"),
   (["who are you", "about you", "tell me about", "introduce"],
    "I\x27m " ++ p.name ++ ", a " ++ p.title ++ ". I help businesses and individuals create beautiful, functional websites and apps. Check out the About section to learn more!"),
   (["nice", "great", "awesome", "cool", "amazing", "love", "beautiful", "impressive"],
    "Thank you so much! I really appreciate the kind words. 😊 Let me know if there\x27s anything I can help you with!"),
   (["interested", "want to work", "work together", "work with you"],
    "That\x27s great to hear! I\x27d love to work with you. Tell me more about what you need, and let\x27s make it happen! 🎯"),
   (["?", "how", "what", "when", "why", "can you"],
    "Great question! I\x27m currently away, but I\x27ll get back to you with a detailed answer soon. Feel free to email me for a faster response!")
  ]


/-- First-match evaluation of an ordered rule list, as the specification
describes the matcher: each rule is a set of keyword substrings plus a
reply; the first rule any of whose keywords occurs in the lowered
message wins; otherwise the default fallback reply. -/
def firstMatch (p : Profile) (lowerMessage : String) :
    List (List String × String) → String
  | [] => defaultReply p
  | (kws, reply) :: rest =>
      if kws.any (fun k => containsStr lowerMessage k) then reply
      else firstMatch p lowerMessage rest

/-- The matcher as the specification words it: the ordered rule table
evaluated by first-match with a default fallback. -/
def matchReply (p : Profile) (m : String) : String :=
  firstMatch p (lowerStr m) (autoReplyRules p)

/-! ### Chat session state -/

inductive Sender where
  | user
  | owner
deriving DecidableEq

structure ChatMessage where
  id : String
  content : String
  sender : Sender
  timestamp : Nat
deriving DecidableEq

/-- A reply scheduled by `setTimeout` in `sendAutoReply`: the captured
user text and the time the 1000 ms timer elapses. -/
structure PendingReply where
  text : String
  due : Nat
deriving DecidableEq

/-- `ChatState` (isOpen + messages) together with the pending
`setTimeout` callbacks, which hold the scheduled auto-replies. -/
structure SessState where
  isOpen : Bool
  messages : List ChatMessage
  pending : List PendingReply
deriving DecidableEq

/-- Message id generation: backtick-template `msg-` followed by
`Date.now()`. -/
def msgId (now : Nat) : String :=
  "msg-" ++ toString now

/-- `handleSendMessage` at clock time `now`: no-op when the trimmed
input is empty, otherwise append the user message and schedule the
auto-reply 1000 ms later (`sendAutoReply`). -/
def sendUserMessage (now : Nat) (text : String) (s : SessState) : SessState :=
  let trimmedInput := trimStr text
  if trimmedInput = "" then s
  else
    { s with
      messages := s.messages ++
        [{ id := msgId now, content := trimmedInput, sender := Sender.user,
           timestamp := now }],
      pending := s.pending ++ [{ text := trimmedInput, due := now + 1000 }] }

/-- The `setTimeout` callback of `sendAutoReply` firing at clock time
`now`: appends the owner reply computed by `getAutoReply` from the
captured user text, timestamped at append time.  Timers with equal
delays fire in scheduling order. -/
def fireReply (p : Profile) (now : Nat) (s : SessState) : SessState :=
  match s.pending with
  | [] => s
  | rep :: rest =>
      { s with
        messages := s.messages ++
          [{ id := msgId now, content := getAutoReply p rep.text,
             sender := Sender.owner, timestamp := now }],
        pending := rest }

/-- `toggleChat`. -/
def toggleChat (s : SessState) : SessState :=
  { s with isOpen := !s.isOpen }

/-! ### Matcher theorems -/

theorem append_ne_empty (a b : String) (h : a ≠ "") : a ++ b ≠ "" := by
  intro hc
  apply h
  have hd : a.data ++ b.data = ([] : List Char) := congrArg String.data hc
  have ha : a.data = [] := (List.append_eq_nil.mp hd).1
  exact String.ext ha

theorem firstMatch_ne_empty (p : Profile) (lm : String)
    (rules : List (List String × String)) (hdef : defaultReply p ≠ "")
    (hr : ∀ r ∈ rules, r.2 ≠ "") : firstMatch p lm rules ≠ "" := by
  induction rules with
  | nil => exact hdef
  | cons r rest ih =>
    rw [firstMatch]
    split
    · exact hr r (List.mem_cons_self r rest)
    · exact ih (fun q hq => hr q (List.mem_cons_of_mem r hq))

theorem defaultReply_ne_empty (p : Profile) : defaultReply p ≠ "" :=
  append_ne_empty _ _ (append_ne_empty _ _ (by decide))

theorem autoReplyRules_ne_empty (p : Profile) :
    ∀ r ∈ autoReplyRules p, r.2 ≠ "" := by
  intro r hr
  simp only [autoReplyRules, List.mem_cons, List.not_mem_nil, or_false] at hr
  rcases hr with rfl | rfl | rfl | rfl | rfl | rfl | rfl | rfl | rfl | rfl | rfl | rfl | rfl | rfl | rfl | rfl | rfl | rfl | rfl | rfl | rfl | rfl | rfl | rfl | rfl | rfl | rfl | rfl | rfl | rfl | rfl | rfl | rfl | rfl | rfl | rfl | rfl | rfl
  all_goals first
    | decide
    | exact append_ne_empty _ _ (append_ne_empty _ _ (by decide))
    | exact append_ne_empty _ _ (append_ne_empty _ _ (append_ne_empty _ _
        (append_ne_empty _ _ (by decide))))

theorem getAutoReply_eq_matchReply (p : Profile) (m : String) :
    getAutoReply p m = matchReply p m := by
  simp only [getAutoReply, matchReply, autoReplyRules, firstMatch,
    List.any_cons, List.any_nil, Bool.or_false, Bool.or_assoc]

/-- C1: the canned-response matcher is a deterministic total function:
it lowercases the input and returns the reply of the first rule of the
fixed ordered rule table any of whose keyword substrings occurs in the
lowered message (`getAutoReply` coincides with the rule-table
first-match evaluation `matchReply`); `"Hello there"` hits the greetings
rule; `"asdkjasd"` hits no rule and yields the default fallback, which
contains the configured contact email; the result is never the empty
string. -/
theorem canned_reply_contract (p : Profile) :
    (∀ m, getAutoReply p m = matchReply p m)
    ∧ getAutoReply p "Hello there"
        = "Hi there! Thanks for reaching out. I\x27m currently away, but feel free to leave a message or email me at " ++ p.email ++ ". I\x27ll get back to you soon!"
    ∧ getAutoReply p "asdkjasd" = defaultReply p
    ∧ containsStr (defaultReply p) p.email = true
    ∧ (∀ m, getAutoReply p m ≠ "") := by
  refine ⟨getAutoReply_eq_matchReply p, rfl, rfl, ?_, ?_⟩
  · show containsSub (defaultReply p).toList p.email.toList = true
    have h2 : (defaultReply p).toList
        = "Thanks for your message! I\x27m currently away but I\x27ll get back to you as soon as possible. You can also reach me directly at ".toList
            ++ (p.email.toList ++ ". Looking forward to connecting with you!".toList) := by
      show (_ ++ _) ++ _ = _
      rw [List.append_assoc]
      rfl
    rw [h2]
    exact containsSub_of_append _ _ _
  · intro m
    rw [getAutoReply_eq_matchReply p m]
    exact firstMatch_ne_empty p (lowerStr m) (autoReplyRules p)
      (defaultReply_ne_empty p) (autoReplyRules_ne_empty p)

/-! ### Chat session theorems -/

/-- C2: `sendUserMessage` is a no-op on blank input (whole state
unchanged, hence same messages, length and ids); otherwise it appends
exactly one user message with the trimmed content to the end of the
list, leaving every earlier message unchanged and in place. -/
theorem send_user_message_contract (now : Nat) (text : String) (s : SessState) :
    (trimStr text = "" → sendUserMessage now text s = s)
    ∧ (trimStr text ≠ "" →
        (sendUserMessage now text s).messages
          = s.messages ++
            [{ id := msgId now, content := trimStr text, sender := Sender.user,
               timestamp := now }]) := by
  constructor
  · intro h; simp [sendUserMessage, h]
  · intro h; simp [sendUserMessage, h]

/-- Instantiation of `send_user_message_contract` at a blank and a
non-blank input. -/
theorem send_user_message_contract_witness :
    sendUserMessage 7 "   " { isOpen := false, messages := [], pending := [] }
        = { isOpen := false, messages := [], pending := [] }
    ∧ (sendUserMessage 7 " hi " { isOpen := false, messages := [], pending := [] }).messages
        = [{ id := "msg-7", content := "hi", sender := Sender.user, timestamp := 7 }] := by
  constructor
  · exact (send_user_message_contract 7 "   "
      { isOpen := false, messages := [], pending := [] }).1 (by decide)
  · have h := (send_user_message_contract 7 " hi "
      { isOpen := false, messages := [], pending := [] }).2 (by decide)
    rw [h]
    rfl

/-- C3: a non-blank send schedules exactly one reply, due 1000 ms after
the send; firing a due reply appends exactly one owner message whose
content is the matcher's reply for the captured user text and whose
timestamp is the fire time, regardless of (and not changing) `isOpen`;
consequently, sending at `now` and firing at any `tfire ≥ now + 1000`
leaves the history extended by exactly the user message and then the
owner reply, whose timestamp is ≥ the user message's timestamp. -/
theorem scheduled_reply_contract (p : Profile) (s : SessState) (text : String)
    (now tfire : Nat) :
    (trimStr text ≠ "" →
      (sendUserMessage now text s).pending
        = s.pending ++ [{ text := trimStr text, due := now + 1000 }])
    ∧ (∀ rep rest, s.pending = rep :: rest →
        fireReply p tfire s =
          { isOpen := s.isOpen,
            messages := s.messages ++
              [{ id := msgId tfire, content := getAutoReply p rep.text,
                 sender := Sender.owner, timestamp := tfire }],
            pending := rest })
    ∧ (trimStr text ≠ "" → s.pending = [] → now + 1000 ≤ tfire →
        (fireReply p tfire (sendUserMessage now text s)).messages
          = s.messages ++
            [{ id := msgId now, content := trimStr text, sender := Sender.user,
               timestamp := now },
             { id := msgId tfire, content := getAutoReply p (trimStr text),
               sender := Sender.owner, timestamp := tfire }]
        ∧ now ≤ tfire
        ∧ (fireReply p tfire (sendUserMessage now text s)).isOpen = s.isOpen) := by
  refine ⟨?_, ?_, ?_⟩
  · intro h; simp [sendUserMessage, h]
  · intro rep rest h
    simp [fireReply, h]
  · intro h hp hle
    refine ⟨?_, by omega, ?_⟩
    · simp [sendUserMessage, fireReply, h, hp]
    · simp [sendUserMessage, fireReply, h, hp]

/-- Instantiation of `scheduled_reply_contract`: send " hi " at t=5 on
an idle closed session, fire the reply at t=1005. -/
theorem scheduled_reply_contract_witness :
    (fireReply { name := "N", location := "L", title := "T", email := "e@x.co" } 1005
        (sendUserMessage 5 " hi "
          { isOpen := false, messages := [], pending := [] })).messages
      = [{ id := msgId 5, content := trimStr " hi ", sender := Sender.user,
           timestamp := 5 },
         { id := msgId 1005,
           content := getAutoReply
             { name := "N", location := "L", title := "T", email := "e@x.co" }
             (trimStr " hi "),
           sender := Sender.owner, timestamp := 1005 }]
    ∧ 5 ≤ 1005 := by
  have h := (scheduled_reply_contract
    { name := "N", location := "L", title := "T", email := "e@x.co" }
    { isOpen := false, messages := [], pending := [] } " hi " 5 1005).2.2
    (by decide) rfl (by omega)
  exact ⟨h.1, h.2.1⟩

/-- C4 fails on the code: message ids are `msg-` followed by
`Date.now()`, so two messages appended during the same clock millisecond
carry the SAME id — here two user messages sent at t=1000 both get id
"msg-1000", and the id list is not duplicate-free. -/
theorem message_id_collision :
    ((sendUserMessage 1000 "second message"
        (sendUserMessage 1000 "first message"
          { isOpen := false, messages := [], pending := [] })).messages.map
      (fun msg => msg.id)) = ["msg-1000", "msg-1000"]
    ∧ ¬ ((sendUserMessage 1000 "second message"
        (sendUserMessage 1000 "first message"
          { isOpen := false, messages := [], pending := [] })).messages.map
      (fun msg => msg.id)).Nodup := by
  constructor
  · rfl
  · decide

end Portfolio
